import Mathlib

/-!
Shallow embedding of `src/mainModelPage.py` (a Streamlit chat page): the
conversation controller state, the helper functions
(`get_ai_response`, `save_to_google_sheets`, `trigger_clarification`,
`clear_chat_history`) and one render pass of the script body
(lines 194-250), together with theorems about the controller.

External collaborators (Streamlit secrets, the Gemini network endpoint and
the Google Sheet) are modelled as an explicit `World` record: the Python
script only observes whether the API key lookup succeeds, what the network
call returns (text or a raised exception message), whether
`get_sheet_connection` returned a sheet, and whether `append_row` raises.
-/

namespace ModelValidation

/-- One chat message, as stored in `st.session_state["messages"]`:
a dict with keys `role` and `content`. -/
structure Turn where
  role : String
  content : String
deriving Repr, DecidableEq

/-- One row appended to the Google Sheet by `save_to_google_sheets`
(`row_data = [user_id, timestamp, model_name, prompt, response, clarification_log]`,
line 58). -/
structure LogEntry where
  user_id : String
  timestamp : String
  model_name : String
  prompt : String
  response : String
  is_clarification : String
deriving Repr, DecidableEq

/-- The per-session mutable state the script keeps in `st.session_state`:
`messages` (line 128) and `auto_execute_clarification` (line 131). -/
structure SessionState where
  messages : List Turn
  auto_execute_clarification : Bool
deriving Repr, DecidableEq

/-- The environment of one render pass: what the external collaborators do.
`hasApiKey` is whether `st.secrets["api_keys"]["google"]` exists (line 70);
`network` is the Gemini call `client.models.generate_content` (line 97),
returning the response text or the raised exception message;
`sheetConnected` is whether `get_sheet_connection` returned a sheet (line 44);
`sinkOk` is whether `sheet.append_row` succeeds (line 61), with
`sinkFailMsg` the exception text when it raises; `timestamp` is what
`datetime.now().strftime(...)` produces at write time (line 55). -/
structure World where
  hasApiKey : Bool
  network : String → List Turn → String → Except String String
  sheetConnected : Bool
  sinkOk : Bool
  sinkFailMsg : String
  timestamp : String

/-- `MODEL_MAPPING` (lines 11-13): the configured model mapping, a single entry. -/
def MODEL_MAPPING : List (String × String) :=
  [("gemini-3-pro-preview", "gemini-3-pro-preview")]

/-- Lines 80-88 of `get_ai_response`: convert the Streamlit history to the
Gemini API format, mapping every non-user role to `"model"`. -/
def toApiContents (chat_history : List Turn) : List Turn :=
  chat_history.map fun msg =>
    { role := if msg.role = "user" then "user" else "model", content := msg.content }

/-- `get_ai_response` (lines 65-107). Returns the reply string together with
a flag recording whether the network was contacted. The API-key lookup is
tried first (early return on `KeyError`); then the model selection is looked
up in `MODEL_MAPPING`; only a configured model reaches the network, and any
exception from the API call becomes the string
`"Error calling API: " ++ e`. -/
def get_ai_response (w : World) (model_selection : String)
    (chat_history : List Turn) (system_instruction_text : String) :
    String × Bool :=
  if w.hasApiKey = false then
    ("Error: Gemini API key not found in secrets.", false)
  else
    match MODEL_MAPPING.lookup model_selection with
    | some model_id =>
        match w.network model_id (toApiContents chat_history) system_instruction_text with
        | Except.ok t => (t, true)
        | Except.error e => ("Error calling API: " ++ e, true)
    | none => ("Error: Selected model not configured.", false)

/-- `save_to_google_sheets` (lines 48-63). Returns the list of rows actually
appended to the sheet (empty or a singleton) together with the error message
shown by `st.error` when `append_row` raises. When no sheet connection
exists the function returns immediately without writing (line 52). -/
def save_to_google_sheets (w : World) (user_id model_name prompt response : String)
    (is_clarification : Bool) : List LogEntry × Option String :=
  if w.sheetConnected = false then
    ([], none)
  else
    let clarification_log := if is_clarification then "TRUE" else "FALSE"
    let entry : LogEntry :=
      { user_id := user_id, timestamp := w.timestamp, model_name := model_name,
        prompt := prompt, response := response, is_clarification := clarification_log }
    if w.sinkOk then ([entry], none)
    else ([], some ("Failed to write to Sheet: " ++ w.sinkFailMsg))

/-- `trigger_clarification` (lines 109-113): sets the auto-execute flag. -/
def trigger_clarification (s : SessionState) : SessionState :=
  { s with auto_execute_clarification := true }

/-- `clear_chat_history` (lines 115-120). -/
def clear_chat_history (_s : SessionState) : SessionState :=
  { messages := [], auto_execute_clarification := false }

/-- The guard of line 253: the clarification button is rendered only when
`messages` is non-empty and the last message role is `"assistant"`
(the same condition guards the clarification branch at line 204). -/
def clarButtonVisible (s : SessionState) : Bool :=
  match s.messages.getLast? with
  | some t => t.role == "assistant"
  | none => false

/-- The clarification UI event: clicking the button of lines 253-254 runs
`trigger_clarification`, and the button exists only when `clarButtonVisible`
holds of the rendered state. This is the operation the specification calls
`request_clarification`. -/
def request_clarification (s : SessionState) : SessionState :=
  if clarButtonVisible s then trigger_clarification s else s

/-- The fixed clarification prompt (line 206). -/
def explanation_request : String :=
  "I don\x27t understand the previous explanation. Please break it down further."

/-- The specification operation `resolve_pending`, read off the
clarification branch of lines 202-212: when the flag is set, produce the
fixed clarification text if the last message is an assistant message, and
reset the flag in either case; when the flag is clear, do nothing. -/
def resolve_pending (s : SessionState) : Option String × SessionState :=
  if s.auto_execute_clarification then
    if clarButtonVisible s then
      (some explanation_request, { s with auto_execute_clarification := false })
    else
      (none, { s with auto_execute_clarification := false })
  else
    (none, s)

/-- Python `str.strip()` on the ASCII whitespace characters Python strips
(space, tab, newline, carriage return, vertical tab, form feed). -/
def pyIsSpace (c : Char) : Bool :=
  c = ' ' || c = '\t' || c = '\n' || c = '\r' || c.val = 11 || c.val = 12

/-- Python `s.strip()` (used at line 220). -/
def pythonStrip (s : String) : String :=
  String.mk (((s.data.dropWhile pyIsSpace).reverse.dropWhile pyIsSpace).reverse)

/-- The validation message of line 221. -/
def missingUserIdError : String := "⚠️ Please enter a User ID first."

/-- Everything one render pass produces besides the new session state:
the rows appended to the sheet, whether the network was contacted, the
inline validation error (line 221) if any, the sink error (line 63) if any,
and the resolved `final_prompt` / `is_clarification` pair (lines 199-216). -/
structure PassOutput where
  state : SessionState
  sinkWrites : List LogEntry
  networkCalled : Bool
  validationError : Option String
  sinkError : Option String
  final_prompt : Option String
  is_clarification : Bool
deriving Repr, DecidableEq

/-- Lines 196-216: determine `final_prompt` and `is_clarification` from the
clarification flag and the typed prompt, resetting the flag when it was set.
`st.chat_input` yields `none` when nothing was submitted, and Python
truthiness makes an empty typed prompt equivalent to none (`elif prompt:`).
Returns `(final_prompt, is_clarification, state after the branch)`. -/
def resolveInput (prompt : Option String) (s : SessionState) :
    Option String × Bool × SessionState :=
  if s.auto_execute_clarification then
    if clarButtonVisible s then
      (some explanation_request, true, { s with auto_execute_clarification := false })
    else
      (none, false, { s with auto_execute_clarification := false })
  else
    match prompt with
    | some p => if p = "" then (none, false, s) else (some p, false, s)
    | none => (none, false, s)

/-- Lines 219-250: process a resolved `final_prompt`. An empty (after strip)
user id blocks the cycle with the inline error; otherwise the user turn is
appended, `get_ai_response` is called on the updated history, the assistant
turn is appended, and `save_to_google_sheets` is called once. -/
def processFinalPrompt (w : World) (user_id_input selected_label system_instruction : String)
    (fp : String) (is_clar : Bool) (s : SessionState) : PassOutput :=
  if pythonStrip user_id_input = "" then
    { state := s, sinkWrites := [], networkCalled := false,
      validationError := some missingUserIdError, sinkError := none,
      final_prompt := some fp, is_clarification := is_clar }
  else
    let s2 : SessionState := { s with messages := s.messages ++ [⟨"user", fp⟩] }
    let r := get_ai_response w selected_label s2.messages system_instruction
    let s3 : SessionState := { s2 with messages := s2.messages ++ [⟨"assistant", r.1⟩] }
    let sv := save_to_google_sheets w user_id_input selected_label fp r.1 is_clar
    { state := s3, sinkWrites := sv.1, networkCalled := r.2,
      validationError := none, sinkError := sv.2,
      final_prompt := some fp, is_clarification := is_clar }

/-- One full render pass of the script body (lines 194-250): resolve the
input, then process the final prompt if there is one. -/
def renderPass (w : World) (user_id_input selected_label system_instruction : String)
    (prompt : Option String) (s : SessionState) : PassOutput :=
  match resolveInput prompt s with
  | (some fp, ic, s1) => processFinalPrompt w user_id_input selected_label system_instruction fp ic s1
  | (none, _, s1) =>
      { state := s1, sinkWrites := [], networkCalled := false,
        validationError := none, sinkError := none,
        final_prompt := none, is_clarification := false }

/-- The initial session state (lines 127-131). -/
def initState : SessionState := { messages := [], auto_execute_clarification := false }

/-- A user interaction: one render pass with its inputs and environment,
a click on the clarification button, or a click on the clear button. -/
inductive Event where
  | render (w : World) (uid sel sys : String) (prompt : Option String)
  | clarify
  | clear

/-- State transition for one event. -/
def step (s : SessionState) : Event → SessionState
  | Event.render w uid sel sys p => (renderPass w uid sel sys p s).state
  | Event.clarify => request_clarification s
  | Event.clear => clear_chat_history s

/-- The session state after a sequence of interactions from the initial state. -/
def run (evs : List Event) : SessionState := evs.foldl step initState

/-! Concrete environments used to evaluate the theorems on closed inputs. -/

/-- An environment in which every collaborator succeeds. -/
def okWorld : World :=
  { hasApiKey := true, network := fun _ _ _ => Except.ok "Goeie dag",
    sheetConnected := true, sinkOk := true, sinkFailMsg := "",
    timestamp := "2026-01-01 00:00:00" }

/-- An environment in which the network call raises. -/
def errWorld : World :=
  { okWorld with network := fun _ _ _ => Except.error "boom" }

/-- An environment in which `append_row` raises. -/
def sinkFailWorld : World :=
  { okWorld with sinkOk := false, sinkFailMsg := "quota" }

/-! ## Theorems -/

/-- C4: `resolve_pending` is one-shot: it resets the pending flag to false
regardless of whether an outgoing text was produced, so a second call in a
row yields no outgoing text, and the flag is false after either call. -/
theorem resolve_pending_one_shot (s : SessionState) :
    (resolve_pending (resolve_pending s).2).1 = none
    ∧ (resolve_pending s).2.auto_execute_clarification = false
    ∧ (resolve_pending (resolve_pending s).2).2.auto_execute_clarification = false := by
  obtain ⟨msgs, flag⟩ := s
  cases flag
  · simp [resolve_pending]
  · cases hv : clarButtonVisible ⟨msgs, true⟩ <;> simp [resolve_pending, hv]

/-- C5: the clarification trigger causes no state change when the turn list
is empty or the last turn is not an assistant turn (the button of line 253
is not rendered in that case). -/
theorem request_clarification_noop (s : SessionState)
    (h : s.messages = [] ∨ ∃ t, s.messages.getLast? = some t ∧ t.role ≠ "assistant") :
    request_clarification s = s := by
  have hv : clarButtonVisible s = false := by
    unfold clarButtonVisible
    rcases h with h | ⟨t, hl, ht⟩
    · simp [h]
    · simp [hl, ht]
  simp [request_clarification, hv]

/-- C5 witness: on a state ending in a user turn, the clarification click is
the identity. -/
theorem request_clarification_noop_witness :
    request_clarification ⟨[⟨"user", "hallo"⟩], false⟩ = ⟨[⟨"user", "hallo"⟩], false⟩ :=
  request_clarification_noop ⟨[⟨"user", "hallo"⟩], false⟩
    (Or.inr ⟨⟨"user", "hallo"⟩, rfl, by decide⟩)

/-- C6: a cycle submitted with an empty user id and a non-empty typed prompt
appends zero turns, writes zero log entries, contacts nothing, and surfaces
the inline validation error. -/
theorem empty_user_id_blocks (w : World) (sel sys p : String) (s : SessionState)
    (hp : p ≠ "") (hflag : s.auto_execute_clarification = false) :
    (renderPass w "" sel sys (some p) s).state = s
    ∧ (renderPass w "" sel sys (some p) s).sinkWrites = []
    ∧ (renderPass w "" sel sys (some p) s).networkCalled = false
    ∧ (renderPass w "" sel sys (some p) s).validationError = some missingUserIdError := by
  unfold renderPass resolveInput
  simp only [hflag, Bool.false_eq_true, if_false, if_neg hp]
  unfold processFinalPrompt
  simp [show pythonStrip "" = "" from rfl]

/-- C6 witness: the concrete blocked cycle with user id `""`. -/
theorem empty_user_id_blocks_witness :
    (renderPass okWorld "" "gemini-3-pro-preview" "sys" (some "hallo") initState).state = initState
    ∧ (renderPass okWorld "" "gemini-3-pro-preview" "sys" (some "hallo") initState).sinkWrites = []
    ∧ (renderPass okWorld "" "gemini-3-pro-preview" "sys" (some "hallo") initState).networkCalled = false
    ∧ (renderPass okWorld "" "gemini-3-pro-preview" "sys" (some "hallo") initState).validationError
        = some missingUserIdError :=
  empty_user_id_blocks okWorld "gemini-3-pro-preview" "sys" "hallo" initState
    (by decide) rfl

/-- C10: a user id that strips to the empty string (in particular one made
only of whitespace) is treated exactly like an empty one: the cycle is
blocked before any turn is appended or any log entry written, with the
inline error shown. -/
theorem whitespace_user_id_blocks (w : World) (uid sel sys p : String) (s : SessionState)
    (hu : pythonStrip uid = "") (hp : p ≠ "") (hflag : s.auto_execute_clarification = false) :
    (renderPass w uid sel sys (some p) s).state = s
    ∧ (renderPass w uid sel sys (some p) s).sinkWrites = []
    ∧ (renderPass w uid sel sys (some p) s).networkCalled = false
    ∧ (renderPass w uid sel sys (some p) s).validationError = some missingUserIdError := by
  unfold renderPass resolveInput
  simp only [hflag, Bool.false_eq_true, if_false, if_neg hp]
  unfold processFinalPrompt
  simp [hu]

/-- Resolving the input (lines 196-216) never changes the message list,
only the clarification flag. -/
theorem resolveInput_messages (prompt : Option String) (s : SessionState) :
    ((resolveInput prompt s).2.2).messages = s.messages := by
  obtain ⟨msgs, flag⟩ := s
  cases flag
  · cases prompt with
    | none => simp [resolveInput]
    | some p => by_cases hp : p = "" <;> simp [resolveInput, hp]
  · cases hv : clarButtonVisible ⟨msgs, true⟩ <;> simp [resolveInput, hv]

/-- With a connected sheet whose append succeeds, the unblocked processing
branch writes exactly one row. -/
theorem processFinalPrompt_writes_one (w : World) (uid sel sys fp : String)
    (ic : Bool) (s : SessionState) (hu : pythonStrip uid ≠ "")
    (hconn : w.sheetConnected = true) (hsink : w.sinkOk = true) :
    (processFinalPrompt w uid sel sys fp ic s).sinkWrites.length = 1 := by
  simp [processFinalPrompt, hu, save_to_google_sheets, hconn, hsink]

/-- C2: with a connected, healthy log sink, every completed request cycle
(a resolved final prompt and a user id that does not strip to empty; the
generator always returns either text or an error string) writes exactly one
log entry; a cycle that fails validation (empty user id, or no (or empty)
typed prompt on the submit path) writes zero log entries and appends zero
turns. -/
theorem one_log_entry_per_cycle (w : World) (uid sel sys : String)
    (prompt : Option String) (s : SessionState)
    (hconn : w.sheetConnected = true) (hsink : w.sinkOk = true) :
    ((renderPass w uid sel sys prompt s).final_prompt.isSome = true →
      pythonStrip uid ≠ "" →
      (renderPass w uid sel sys prompt s).sinkWrites.length = 1)
    ∧ (pythonStrip uid = "" →
      (renderPass w uid sel sys prompt s).sinkWrites = []
      ∧ (renderPass w uid sel sys prompt s).state.messages = s.messages)
    ∧ (s.auto_execute_clarification = false → (prompt = none ∨ prompt = some "") →
      (renderPass w uid sel sys prompt s).sinkWrites = []
      ∧ (renderPass w uid sel sys prompt s).state.messages = s.messages) := by
  rcases hr : resolveInput prompt s with ⟨fp, ic, s1⟩
  have hm : s1.messages = s.messages := by
    have h0 := resolveInput_messages prompt s
    rw [hr] at h0
    exact h0
  refine ⟨?_, ?_, ?_⟩
  · intro hfp hu
    cases fp with
    | none => simp [renderPass, hr] at hfp
    | some f =>
        simp only [renderPass, hr]
        exact processFinalPrompt_writes_one w uid sel sys f ic s1 hu hconn hsink
  · intro hu
    cases fp with
    | none => simp [renderPass, hr, hm]
    | some f => simp [renderPass, hr, processFinalPrompt, hu, hm]
  · intro hflag hpe
    rcases hpe with hpe | hpe <;> rw [hpe] at hr <;>
      simp [resolveInput, hflag] at hr <;>
      rcases hr with ⟨h1, h2, h3⟩ <;>
      subst h1 <;>
      simp [renderPass, resolveInput, hflag, hpe, ← h3, hm]

/-- C2 witness: the concrete completed cycle writes exactly one row, and the
concrete validation-blocked cycle writes none. -/
theorem one_log_entry_per_cycle_witness :
    (renderPass okWorld "u" "gemini-3-pro-preview" "sys" (some "hallo") initState).sinkWrites.length = 1
    ∧ (renderPass okWorld "" "gemini-3-pro-preview" "sys" (some "hallo") initState).sinkWrites = [] :=
  ⟨(one_log_entry_per_cycle okWorld "u" "gemini-3-pro-preview" "sys" (some "hallo") initState
      rfl rfl).1 (by decide) (by decide),
   ((one_log_entry_per_cycle okWorld "" "gemini-3-pro-preview" "sys" (some "hallo") initState
      rfl rfl).2.1 rfl).1⟩

/-- C7: when the generator fails on a well-formed request (API key present,
model configured, network call raises), exactly two turns are appended —
the user turn and an assistant turn carrying the error description — and
exactly one log entry is written whose response field is the error text. -/
theorem generator_failure_logged (w : World) (uid sel sys p msg mid : String)
    (s : SessionState)
    (huid : pythonStrip uid ≠ "") (hflag : s.auto_execute_clarification = false)
    (hp : p ≠ "") (hkey : w.hasApiKey = true)
    (hmodel : MODEL_MAPPING.lookup sel = some mid)
    (hnet : ∀ m c i, w.network m c i = Except.error msg)
    (hconn : w.sheetConnected = true) (hsink : w.sinkOk = true) :
    (renderPass w uid sel sys (some p) s).state.messages
      = s.messages ++ [⟨"user", p⟩, ⟨"assistant", "Error calling API: " ++ msg⟩]
    ∧ (renderPass w uid sel sys (some p) s).sinkWrites
      = [⟨uid, w.timestamp, sel, p, "Error calling API: " ++ msg, "FALSE"⟩] := by
  simp [renderPass, resolveInput, processFinalPrompt, get_ai_response,
    save_to_google_sheets, hflag, hp, huid, hkey, hmodel, hnet, hconn, hsink]

/-- C7 witness: the concrete failing-generator cycle. -/
theorem generator_failure_logged_witness :
    (renderPass errWorld "u" "gemini-3-pro-preview" "sys" (some "hallo") initState).state.messages
      = [⟨"user", "hallo"⟩, ⟨"assistant", "Error calling API: boom"⟩]
    ∧ (renderPass errWorld "u" "gemini-3-pro-preview" "sys" (some "hallo") initState).sinkWrites
      = [⟨"u", "2026-01-01 00:00:00", "gemini-3-pro-preview", "hallo",
          "Error calling API: boom", "FALSE"⟩] := by
  have h := generator_failure_logged errWorld "u" "gemini-3-pro-preview" "sys" "hallo"
    "boom" "gemini-3-pro-preview" initState (by decide) rfl (by decide) rfl rfl
    (fun _ _ _ => rfl) rfl rfl
  simpa using h

/-- C8: when the sheet append fails after a successful generator call, the
user and assistant turns are still in the turn list unchanged, the failure
is reported, and no row lands in the sheet. -/
theorem sink_failure_keeps_turns (w : World) (uid sel sys p t mid : String)
    (s : SessionState)
    (huid : pythonStrip uid ≠ "") (hflag : s.auto_execute_clarification = false)
    (hp : p ≠ "") (hkey : w.hasApiKey = true)
    (hmodel : MODEL_MAPPING.lookup sel = some mid)
    (hnet : ∀ m c i, w.network m c i = Except.ok t)
    (hconn : w.sheetConnected = true) (hsinkfail : w.sinkOk = false) :
    (renderPass w uid sel sys (some p) s).state.messages
      = s.messages ++ [⟨"user", p⟩, ⟨"assistant", t⟩]
    ∧ (renderPass w uid sel sys (some p) s).sinkError
      = some ("Failed to write to Sheet: " ++ w.sinkFailMsg)
    ∧ (renderPass w uid sel sys (some p) s).sinkWrites = [] := by
  simp [renderPass, resolveInput, processFinalPrompt, get_ai_response,
    save_to_google_sheets, hflag, hp, huid, hkey, hmodel, hnet, hconn, hsinkfail]

/-- C8 witness: the concrete failing-sink cycle. -/
theorem sink_failure_keeps_turns_witness :
    (renderPass sinkFailWorld "u" "gemini-3-pro-preview" "sys" (some "hallo") initState).state.messages
      = [⟨"user", "hallo"⟩, ⟨"assistant", "Goeie dag"⟩]
    ∧ (renderPass sinkFailWorld "u" "gemini-3-pro-preview" "sys" (some "hallo") initState).sinkError
      = some "Failed to write to Sheet: quota"
    ∧ (renderPass sinkFailWorld "u" "gemini-3-pro-preview" "sys" (some "hallo") initState).sinkWrites
      = [] := by
  have h := sink_failure_keeps_turns sinkFailWorld "u" "gemini-3-pro-preview" "sys" "hallo"
    "Goeie dag" "gemini-3-pro-preview" initState (by decide) rfl (by decide) rfl rfl
    (fun _ _ _ => rfl) rfl rfl
  simpa using h

/-- C10 witness: the concrete blocked cycle with a whitespace-only user id. -/
theorem whitespace_user_id_blocks_witness :
    (renderPass okWorld "  \t " "gemini-3-pro-preview" "sys" (some "hallo") initState).state = initState
    ∧ (renderPass okWorld "  \t " "gemini-3-pro-preview" "sys" (some "hallo") initState).sinkWrites = []
    ∧ (renderPass okWorld "  \t " "gemini-3-pro-preview" "sys" (some "hallo") initState).networkCalled = false
    ∧ (renderPass okWorld "  \t " "gemini-3-pro-preview" "sys" (some "hallo") initState).validationError
        = some missingUserIdError :=
  whitespace_user_id_blocks okWorld "  \t " "gemini-3-pro-preview" "sys" "hallo" initState
    (by decide) (by decide) rfl

/-- C9: after one successful turn, triggering clarification and resolving it
on the next pass produces the fixed outgoing prompt and a log entry whose
`is_clarification` column is `"TRUE"` (with that prompt as its `prompt`
column). -/
theorem clarification_round_trip (w1 w2 : World) (uid sel sys1 sys2 p t mid : String)
    (huid : pythonStrip uid ≠ "") (hp : p ≠ "")
    (hkey : w1.hasApiKey = true) (hmodel : MODEL_MAPPING.lookup sel = some mid)
    (hnet : ∀ m c i, w1.network m c i = Except.ok t)
    (hconn2 : w2.sheetConnected = true) (hsink2 : w2.sinkOk = true) :
    (renderPass w2 uid sel sys2 none
        (request_clarification
          (renderPass w1 uid sel sys1 (some p) initState).state)).final_prompt
      = some explanation_request
    ∧ ((renderPass w2 uid sel sys2 none
        (request_clarification
          (renderPass w1 uid sel sys1 (some p) initState).state)).sinkWrites.map
            fun e => (e.prompt, e.is_clarification))
      = [(explanation_request, "TRUE")] := by
  have h1 : (renderPass w1 uid sel sys1 (some p) initState).state
      = ⟨[⟨"user", p⟩, ⟨"assistant", t⟩], false⟩ := by
    simp [renderPass, resolveInput, processFinalPrompt, initState,
      get_ai_response, hp, huid, hkey, hmodel, hnet]
  rw [h1]
  have h2 : request_clarification ⟨[⟨"user", p⟩, ⟨"assistant", t⟩], false⟩
      = ⟨[⟨"user", p⟩, ⟨"assistant", t⟩], true⟩ := by
    simp [request_clarification, clarButtonVisible, trigger_clarification]
  rw [h2]
  have hv : clarButtonVisible ⟨[⟨"user", p⟩, ⟨"assistant", t⟩], true⟩ = true := by
    simp [clarButtonVisible]
  simp [renderPass, resolveInput, hv, processFinalPrompt, huid,
    save_to_google_sheets, hconn2, hsink2]

/-- C9 witness: the concrete round trip. -/
theorem clarification_round_trip_witness :
    (renderPass okWorld "u" "gemini-3-pro-preview" "s2" none
        (request_clarification
          (renderPass okWorld "u" "gemini-3-pro-preview" "s1" (some "hallo") initState).state)).final_prompt
      = some explanation_request
    ∧ ((renderPass okWorld "u" "gemini-3-pro-preview" "s2" none
        (request_clarification
          (renderPass okWorld "u" "gemini-3-pro-preview" "s1" (some "hallo") initState).state)).sinkWrites.map
            fun e => (e.prompt, e.is_clarification))
      = [(explanation_request, "TRUE")] :=
  clarification_round_trip okWorld okWorld "u" "gemini-3-pro-preview" "s1" "s2" "hallo"
    "Goeie dag" "gemini-3-pro-preview" (by decide) (by decide) rfl rfl
    (fun _ _ _ => rfl) rfl rfl

/-- C1 counterexample: a cycle started with the unconfigured model id
`"gpt-9"` does append turns and does write a log entry — the code returns
the string `"Error: Selected model not configured."` from
`get_ai_response` and then runs the ordinary append-and-log path, so two
turns are appended and one log entry is written (the network is indeed
never contacted). -/
theorem unconfigured_model_counterexample :
    (renderPass okWorld "student_123" "gpt-9" "sys" (some "hallo") initState).state.messages.length = 2
    ∧ (renderPass okWorld "student_123" "gpt-9" "sys" (some "hallo") initState).sinkWrites.length = 1
    ∧ (renderPass okWorld "student_123" "gpt-9" "sys" (some "hallo") initState).networkCalled = false := by
  decide

/-- C1 amended: a cycle started with a model id that is not in
`MODEL_MAPPING` (API key present, validation passed) never contacts the
network, and — like a generator failure — appends two turns (the user turn
plus an assistant turn carrying `"Error: Selected model not configured."`)
and writes one log entry with that string as its response. -/
theorem unconfigured_model_behavior (w : World) (uid sel sys p : String) (s : SessionState)
    (hmodel : MODEL_MAPPING.lookup sel = none) (hkey : w.hasApiKey = true)
    (huid : pythonStrip uid ≠ "") (hflag : s.auto_execute_clarification = false)
    (hp : p ≠ "") (hconn : w.sheetConnected = true) (hsink : w.sinkOk = true) :
    (renderPass w uid sel sys (some p) s).networkCalled = false
    ∧ (renderPass w uid sel sys (some p) s).state.messages
      = s.messages ++ [⟨"user", p⟩, ⟨"assistant", "Error: Selected model not configured."⟩]
    ∧ (renderPass w uid sel sys (some p) s).sinkWrites
      = [⟨uid, w.timestamp, sel, p, "Error: Selected model not configured.", "FALSE"⟩] := by
  simp [renderPass, resolveInput, processFinalPrompt, get_ai_response,
    save_to_google_sheets, hflag, hp, huid, hkey, hmodel, hconn, hsink]

/-- C1 amended witness: the concrete unconfigured-model cycle. -/
theorem unconfigured_model_behavior_witness :
    (renderPass okWorld "student_123" "gpt-9" "sys2" (some "haai") initState).networkCalled = false
    ∧ (renderPass okWorld "student_123" "gpt-9" "sys2" (some "haai") initState).state.messages
      = [⟨"user", "haai"⟩, ⟨"assistant", "Error: Selected model not configured."⟩]
    ∧ (renderPass okWorld "student_123" "gpt-9" "sys2" (some "haai") initState).sinkWrites
      = [⟨"student_123", "2026-01-01 00:00:00", "gpt-9", "haai",
          "Error: Selected model not configured.", "FALSE"⟩] := by
  have h := unconfigured_model_behavior okWorld "student_123" "gpt-9" "sys2" "haai" initState
    (by decide) rfl (by decide) rfl (by decide) rfl rfl
  simpa using h

/-- One render pass leaves the message list unchanged or appends exactly
two messages. -/
theorem renderPass_messages_len (w : World) (uid sel sys : String)
    (prompt : Option String) (s : SessionState) :
    (renderPass w uid sel sys prompt s).state.messages.length = s.messages.length
    ∨ (renderPass w uid sel sys prompt s).state.messages.length = s.messages.length + 2 := by
  rcases hr : resolveInput prompt s with ⟨fp, ic, s1⟩
  have hm : s1.messages = s.messages := by
    have h0 := resolveInput_messages prompt s
    rw [hr] at h0
    exact h0
  cases fp with
  | none => left; simp [renderPass, hr, hm]
  | some f =>
      by_cases hu : pythonStrip uid = ""
      · left; simp [renderPass, hr, processFinalPrompt, hu, hm]
      · right; simp [renderPass, hr, processFinalPrompt, hu, hm]

/-- Every interaction preserves evenness of the message-list length. -/
theorem step_even (s : SessionState) (e : Event) (h : Even s.messages.length) :
    Even ((step s e).messages.length) := by
  cases e with
  | render w uid sel sys p =>
      rcases renderPass_messages_len w uid sel sys p s with hl | hl
      · simpa [step, hl] using h
      · simp only [step, hl]
        exact h.add even_two
  | clarify =>
      by_cases hv : clarButtonVisible s = true <;>
        simpa [step, request_clarification, trigger_clarification, hv] using h
  | clear => simp [step, clear_chat_history]

/-- The message-list length is even in every reachable state. -/
theorem run_messages_even (evs : List Event) : Even (run evs).messages.length := by
  suffices h : ∀ s : SessionState, Even s.messages.length →
      Even ((evs.foldl step s).messages.length) by
    exact h initState (by simp [initState])
  induction evs with
  | nil => intro s hs; simpa using hs
  | cons e tl ih => intro s hs; exact ih (step s e) (step_even s e hs)

/-- C3: the turn-list length is even after any sequence of interactions
from the initial state — hence immediately after any completed request
cycle, whether the generator succeeded or returned an error string — and a
cycle blocked by the validation error leaves the turn list unchanged. (In
the code a configuration error never blocks a cycle: an unconfigured model
completes the cycle with the error string as the assistant turn, which also
preserves evenness; see the C1 theorems.) -/
theorem turns_even_and_blocked_unchanged :
    (∀ evs : List Event, Even (run evs).messages.length)
    ∧ ∀ (w : World) (uid sel sys : String) (prompt : Option String) (s : SessionState),
        ((renderPass w uid sel sys prompt s).validationError).isSome = true →
        (renderPass w uid sel sys prompt s).state.messages = s.messages := by
  refine ⟨run_messages_even, ?_⟩
  intro w uid sel sys prompt s h
  rcases hr : resolveInput prompt s with ⟨fp, ic, s1⟩
  have hm : s1.messages = s.messages := by
    have h0 := resolveInput_messages prompt s
    rw [hr] at h0
    exact h0
  cases fp with
  | none => simp [renderPass, hr, hm]
  | some f =>
      by_cases hu : pythonStrip uid = ""
      · simp [renderPass, hr, processFinalPrompt, hu, hm]
      · simp [renderPass, hr, processFinalPrompt, hu] at h

/-- C3 witness: evenness after a concrete completed cycle, and an unchanged
turn list after a concrete validation-blocked cycle. -/
theorem turns_even_and_blocked_unchanged_witness :
    Even (run [Event.render okWorld "u" "gemini-3-pro-preview" "sys" (some "hallo")]).messages.length
    ∧ (renderPass okWorld "" "gemini-3-pro-preview" "sys" (some "hallo") initState).state.messages
      = initState.messages :=
  ⟨turns_even_and_blocked_unchanged.1
      [Event.render okWorld "u" "gemini-3-pro-preview" "sys" (some "hallo")],
   turns_even_and_blocked_unchanged.2 okWorld "" "gemini-3-pro-preview" "sys"
      (some "hallo") initState (by decide)⟩

end ModelValidation
